import Mathlib

/-!
Shallow embedding of `reVrost/playtools` (src/main.go), a Bubble Tea
terminal UI that invokes an AWS Lambda ("sweepstake rewards calculator").

The embedding translates the repository's own code faithfully:
  * `EventPayload`, `Screen`, `Model`, `update` (Go `model.Update`),
  * `marshalFields` / `marshalEventPayload` (Go `encoding/json` struct tags
    on `EventPayload`: which keys are emitted, `omitempty` handling),
  * `checkSSOSession`, `invokeLambda`, `decodeBase64`.
External collaborators (the AWS SDK, the `aws` CLI, `encoding/json`
parsing of the *response*, the bubbles list/textinput widgets) are not
code of this repository; they are modelled as oracle inputs (`SSOWorld`,
`LambdaWorld`) or as minimal widget models (`ListWidget`, `TextInput`)
that carry exactly the state the repository code reads and writes.
-/

/-- Actions accepted by the lambda (Go `Action` constants). -/
def actionProcess : String := "process"

/-- Go `ActionComplete`. -/
def actionComplete : String := "complete"

/-- Go `ActionStart`. -/
def actionStart : String := "start"

/-- Go `EventPayload` struct: the request payload for the lambda. -/
structure EventPayload where
  action : String
  dryRun : Bool
  sweepstakeQuestID : Option Int
  batchSize : Option Int
  durationMinutes : Option Int
  /-- `*json.RawMessage` in Go, kept as its raw text. -/
  sweepstakeOverrides : Option String
  deriving Repr, DecidableEq

/-- Go `Screen` enumeration. -/
inductive Screen where
  | EnvironmentScreen
  | ActionScreen
  | LoadingScreen
  | OutputScreen
  | PromptScreen
  deriving Repr, DecidableEq

/-- Go `item` struct used by the two list widgets. -/
structure Item where
  title : String
  desc : String
  action : String
  deriving Repr, DecidableEq

/-- Minimal model of the external `bubbles/list` widget: the fields the
repository code reads (selected item) and that navigation keys change
(the cursor index). Display size is not part of this state. -/
structure ListWidget where
  items : List Item
  index : Nat
  deriving Repr, DecidableEq

/-- Go `list.Model.SelectedItem()` on the modelled widget. -/
def ListWidget.selectedItem (l : ListWidget) : Option Item :=
  l.items.get? l.index

/-- Minimal model of the external `bubbles/textinput` widget: its value
and character limit (the repository configures CharLimit 10). -/
structure TextInput where
  value : String
  charLimit : Nat
  deriving Repr, DecidableEq

/-- Messages delivered to `update` (the `tea.Msg` cases the Go code
switches on). `key s` carries Go `tea.KeyMsg.String()`. -/
inductive Msg where
  | key (s : String)
  | tick
  | lambdaMsg (output : List String) (logs : String) (err : Option String)
  | windowSize (w h : Int)
  | spinnerTick
  deriving Repr, DecidableEq

/-- Commands returned by `update` (`tea.Cmd`). The source uses
`tea.Batch` exactly once, with two commands, hence the binary `batch`. -/
inductive Cmd where
  | none
  | quit
  | blink
  | spinnerTickCmd
  | invoke (env : String) (payload : EventPayload)
  | batch (c1 c2 : Cmd)
  deriving Repr, DecidableEq

/-- Go `model` struct: all application state. The spinner is reduced to
a tick counter; styles and exact widget internals are external. -/
structure Model where
  currentScreen : Screen
  promptMessage : String
  promptQuestion : String
  promptInput : TextInput
  envList : ListWidget
  actionList : ListWidget
  spinner : Nat
  selectedEnv : String
  selectedAction : String
  lambdaOutput : List String
  lambdaLogs : String
  lambdaErr : Option String
  width : Int
  height : Int
  deriving Repr, DecidableEq

/-- Environment items built in Go `initialModel`. -/
def envItems : List Item :=
  [⟨"Development", "Use development environment", "dev"⟩,
   ⟨"Production", "Use production environment", "prod"⟩]

/-- Action items built in Go `initialModel`. -/
def actionItems : List Item :=
  [⟨"Start Sweepstake", "Play new sweepstake, overriding existing ones", "start"⟩,
   ⟨"Process Sweepstake", "Process sweepstake calculation without distributing rewards", "process"⟩,
   ⟨"Complete Sweepstake", "Complete sweepstake calculation and distribute rewards", "complete"⟩]

/-- Go `initialModel`. -/
def initialModel : Model where
  currentScreen := .EnvironmentScreen
  promptMessage := ""
  promptQuestion := ""
  promptInput := ⟨"", 10⟩
  envList := ⟨envItems, 0⟩
  actionList := ⟨actionItems, 0⟩
  spinner := 0
  selectedEnv := ""
  selectedAction := ""
  lambdaOutput := []
  lambdaLogs := ""
  lambdaErr := Option.none
  width := 0
  height := 0

/-- Model of the external list widget's Update: vertical navigation keys
move the cursor within bounds; every other message leaves the modelled
state unchanged (resizing and filtering do not move the cursor). -/
def ListWidget.update (l : ListWidget) (msg : Msg) : ListWidget :=
  match msg with
  | .key s =>
    if s = "up" ∨ s = "k" then
      { l with index := l.index - 1 }
    else if s = "down" ∨ s = "j" then
      { l with index := min (l.index + 1) (l.items.length - 1) }
    else l
  | _ => l

/-- Model of the external textinput widget's Update: a single printable
character is appended (subject to the character limit), backspace deletes,
anything else leaves the value unchanged. -/
def TextInput.update (t : TextInput) (msg : Msg) : TextInput :=
  match msg with
  | .key s =>
    if s.length = 1 then
      if t.value.length < t.charLimit then { t with value := t.value ++ s } else t
    else if s = "backspace" then
      { t with value := (t.value.toList.dropLast).asString }
    else t
  | _ => t

/-- Go `strconv.Atoi` range bound (64-bit int minimum). -/
def int64Min : Int := -(2 ^ 63)

/-- Go `strconv.Atoi` range bound (64-bit int maximum). -/
def int64Max : Int := 2 ^ 63 - 1

/-- ASCII decimal digit test. -/
def isDigitChar (c : Char) : Bool := '0' ≤ c ∧ c ≤ '9'

/-- Accumulate the value of a non-empty run of decimal digits. -/
def digitsValAux : List Char → Nat → Option Nat
  | [], acc => some acc
  | c :: rest, acc =>
    if isDigitChar c then digitsValAux rest (acc * 10 + (c.toNat - 48))
    else Option.none

/-- Value of a non-empty all-digit character list, else `none`. -/
def digitsVal : List Char → Option Nat
  | [] => Option.none
  | cs => digitsValAux cs 0

/-- Go `strconv.Atoi` rejects values outside the 64-bit int range
(returns `ErrRange`, which the caller treats as failure). -/
def atoiRange (v : Int) : Option Int :=
  if int64Min ≤ v ∧ v ≤ int64Max then some v else Option.none

/-- Model of Go `strconv.Atoi`: an optional sign followed by one or more
ASCII digits, within the 64-bit int range; anything else errors. -/
def atoi (s : String) : Option Int :=
  match s.toList with
  | '+' :: rest => (digitsVal rest).bind fun n => atoiRange (Int.ofNat n)
  | '-' :: rest => (digitsVal rest).bind fun n => atoiRange (-(Int.ofNat n))
  | cs => (digitsVal cs).bind fun n => atoiRange (Int.ofNat n)

/-- The widget-update section at the bottom of Go `model.Update`, reached
when no `case` returned early: the widget of the current screen receives
the message. -/
def fallthroughWidgets (m : Model) (msg : Msg) : Model × Cmd :=
  match m.currentScreen with
  | .EnvironmentScreen => ({ m with envList := m.envList.update msg }, .none)
  | .ActionScreen => ({ m with actionList := m.actionList.update msg }, .none)
  | .PromptScreen => ({ m with promptInput := m.promptInput.update msg }, .none)
  | _ => (m, .none)

/-- Go `model.Update`, translated branch for branch. Go's `switch` does
not fall through between cases, but a case body that ends without
`return` continues to the widget-update section (`fallthroughWidgets`). -/
def update (m : Model) (msg : Msg) : Model × Cmd :=
  match msg with
  | .key s =>
    if m.currentScreen = .LoadingScreen then (m, .none)
    else if s = "ctrl+c" ∨ s = "q" then (m, .quit)
    else if s = "b" then
      if m.currentScreen = .OutputScreen then
        ({ m with currentScreen := .ActionScreen }, .none)
      else fallthroughWidgets m msg
    else if s = "enter" then
      match m.currentScreen with
      | .EnvironmentScreen =>
        match m.envList.selectedItem with
        | some i => ({ m with selectedEnv := i.action, currentScreen := .ActionScreen }, .none)
        | Option.none => (m, .none)
      | .ActionScreen =>
        match m.actionList.selectedItem with
        | Option.none => (m, .none)
        | some i =>
          let m1 := { m with selectedAction := i.action,
                             currentScreen := Screen.PromptScreen,
                             promptMessage := "" }
          let m2 :=
            if m1.selectedAction = actionProcess ∨ m1.selectedAction = actionComplete then
              { m1 with promptQuestion := "Please enter sweepstake quest ID" }
            else
              { m1 with promptQuestion := "Please enter sweepstake duration in minutes" }
          ({ m2 with promptInput := { m2.promptInput with value := "" } }, .blink)
      | .PromptScreen =>
        match atoi m.promptInput.value with
        | Option.none =>
          ({ m with promptMessage := "Please enter a valid positive number" }, .none)
        | some id =>
          if id ≤ 0 then
            ({ m with promptMessage := "Please enter a valid positive number" }, .none)
          else
            let payload : EventPayload :=
              if m.selectedAction = actionComplete ∨ m.selectedAction = actionProcess then
                ⟨m.selectedAction, false, some id, Option.none, Option.none, Option.none⟩
              else
                ⟨m.selectedAction, false, Option.none, Option.none, some id, Option.none⟩
            ({ m with currentScreen := .LoadingScreen },
             .batch .spinnerTickCmd (.invoke m.selectedEnv payload))
      | _ => fallthroughWidgets m msg
    else fallthroughWidgets m msg
  | .tick => (m, .none)
  | .lambdaMsg output logs err =>
    ({ m with lambdaOutput := output, lambdaLogs := logs, lambdaErr := err,
              currentScreen := .OutputScreen }, .none)
  | .windowSize w h =>
    fallthroughWidgets { m with width := w, height := h } (.windowSize w h)
  | .spinnerTick => ({ m with spinner := m.spinner + 1 }, .spinnerTickCmd)

/-- The prompt-screen branch of Go `model.View` (the strings.Builder
content before `docStyle.Render`); the textinput's view is modelled by
its value. -/
def promptScreenBody (m : Model) : String :=
  let s1 := "\n\n  " ++ m.promptQuestion ++ " " ++ m.selectedAction ++ ":\n\n"
  let s2 := s1 ++ "  " ++ m.promptInput.value ++ "\n\n"
  let s3 := if m.promptMessage ≠ "" then s2 ++ "  " ++ m.promptMessage ++ "\n\n" else s2
  s3 ++ "  Press Enter to continue or 'b' to go back\n"

/-- Go `profileMap` (a map lookup returning the zero value "" when the
environment is unknown). -/
def profileMap (env : String) : String :=
  if env = "dev" then "platform-nonprod-engineer"
  else if env = "prod" then "platform-prod-engineer"
  else ""

/-- Go `fmt.Sprintf(sweepstakeFunctionName, env)`. -/
def sweepstakeFunctionName (env : String) : String :=
  "imx-rewards-" ++ env ++ "-sweepstake-rewards-calculator"

/-- JSON values emitted when serializing `EventPayload`. -/
inductive JVal where
  | jnull
  | jbool (b : Bool)
  | jint (n : Int)
  | jstr (s : String)
  | raw (s : String)
  deriving Repr, DecidableEq

/-- Render a `JVal` (string escaping is a no-op for the action names the
program ever emits). -/
def renderJVal : JVal → String
  | .jnull => "null"
  | .jbool true => "true"
  | .jbool false => "false"
  | .jint n => toString n
  | .jstr s => "\"" ++ s ++ "\""
  | .raw s => s

/-- The key-value pairs `encoding/json` emits for `EventPayload`, in
struct order, following the struct tags: `action`, `dry_run` and
`sweepstake_quest_id` have no `omitempty`, so they are always present
(a nil pointer serializes as `null`); `batch_size`, `duration_minutes`
and `sweepstake_overrides` carry `omitempty` and are dropped when nil. -/
def marshalFields (p : EventPayload) : List (String × JVal) :=
  [("action", .jstr p.action),
   ("dry_run", .jbool p.dryRun),
   ("sweepstake_quest_id",
     match p.sweepstakeQuestID with
     | some n => .jint n
     | Option.none => .jnull)]
  ++ (match p.batchSize with
      | some n => [("batch_size", JVal.jint n)]
      | Option.none => [])
  ++ (match p.durationMinutes with
      | some n => [("duration_minutes", JVal.jint n)]
      | Option.none => [])
  ++ (match p.sweepstakeOverrides with
      | some r => [("sweepstake_overrides", JVal.raw r)]
      | Option.none => [])

/-- Go `json.Marshal` on `EventPayload` (compact form). -/
def marshalEventPayload (p : EventPayload) : String :=
  "\x7b" ++
    String.intercalate ","
      ((marshalFields p).map fun kv => "\"" ++ kv.1 ++ "\":" ++ renderJVal kv.2) ++
  "\x7d"

/-- Go `json.MarshalIndent(payload, "", "  ")` on `EventPayload`. -/
def marshalIndentEventPayload (p : EventPayload) : String :=
  "\x7b\n" ++
    String.intercalate ",\n"
      ((marshalFields p).map fun kv => "  \"" ++ kv.1 ++ "\": " ++ renderJVal kv.2) ++
  "\n\x7d"

/-- Value of a standard base64 alphabet character. -/
def base64CharVal (c : Char) : Option Nat :=
  if 'A' ≤ c ∧ c ≤ 'Z' then some (c.toNat - 65)
  else if 'a' ≤ c ∧ c ≤ 'z' then some (c.toNat - 97 + 26)
  else if '0' ≤ c ∧ c ≤ '9' then some (c.toNat - 48 + 52)
  else if c = '+' then some 62
  else if c = '/' then some 63
  else Option.none

/-- Model of `base64.StdEncoding.DecodeString` (on newline-free input):
groups of four alphabet characters, with `=` padding allowed only at the
very end; any other shape is an error (`none`). -/
def decodeB64Groups : List Char → Option (List Nat)
  | [] => some []
  | c1 :: c2 :: c3 :: c4 :: rest =>
    match base64CharVal c1, base64CharVal c2 with
    | some v1, some v2 =>
      if c3 = '=' then
        if c4 = '=' ∧ rest = [] then some [v1 * 4 + v2 / 16]
        else Option.none
      else
        match base64CharVal c3 with
        | some v3 =>
          if c4 = '=' then
            if rest = [] then some [v1 * 4 + v2 / 16, v2 % 16 * 16 + v3 / 4]
            else Option.none
          else
            match base64CharVal c4 with
            | some v4 =>
              (decodeB64Groups rest).map fun bs =>
                (v1 * 4 + v2 / 16) :: (v2 % 16 * 16 + v3 / 4) :: (v3 % 4 * 64 + v4) :: bs
            | Option.none => Option.none
        | Option.none => Option.none
    | _, _ => Option.none
  | _ => Option.none

/-- Go `decodeBase64`: wraps the standard decoder, mapping its error into
"failed to decode base64: ..." (the library's positional detail string is
abstracted); decoded bytes come back as a string, byte for byte. -/
def decodeBase64 (encoded : String) : Except String String :=
  match decodeB64Groups encoded.toList with
  | Option.none => .error "failed to decode base64: illegal base64 data"
  | some bytes => .ok (String.mk (bytes.map Char.ofNat))

/-- Oracle for the external `aws` CLI calls made by `checkSSOSession`:
whether the CLI binary exists, whether `sts get-caller-identity` exits
zero, whether `sso login` exits zero, and the login command's error text
and combined output. -/
structure SSOWorld where
  awsCliFound : Bool
  stsOk : Bool
  loginOk : Bool
  loginErr : String
  loginOutput : String
  deriving Repr, DecidableEq

/-- Go `checkSSOSession`: appends informational lines to `output` and
returns an optional error, exactly as the source mutates `*output`. -/
def checkSSOSession (w : SSOWorld) (output : List String) :
    List String × Option String :=
  if !w.awsCliFound then (output, some "AWS CLI not found")
  else if w.stsOk then (output, Option.none)
  else
    let output := output ++ ["SSO session expired. Logging in..."]
    if w.loginOk then (output ++ ["SSO login successful"], Option.none)
    else
      (output,
       some ("SSO login failed: " ++ w.loginErr ++ "\nOutput: " ++ w.loginOutput))

/-- Oracle for the external AWS SDK calls made by `invokeLambda`:
config loading, the Invoke transport result, whether `json.Unmarshal`
parses the response payload as a JSON object (with the pretty-printed
form when it does), the function-level error, and the base64 log blob. -/
structure LambdaWorld where
  sso : SSOWorld
  configLoadErr : Option String
  invokeErr : Option String
  responsePayload : String
  responseParsesAsObject : Bool
  formattedResponse : String
  functionError : Option String
  logResult : Option String
  deriving Repr, DecidableEq

/-- Go `lambdaResult` message contents / what `invokeLambdaCmd` collects:
output lines, decoded logs, optional error. -/
structure InvocationResult where
  output : List String
  logs : String
  err : Option String
  deriving Repr, DecidableEq

/-- Go `invokeLambda`, instrumented: the second component is the function
name passed to `client.Invoke` when that call is reached, `none` when the
flow returns before invoking the lambda. -/
def invokeLambda (w : LambdaWorld) (env : String) (payload : EventPayload) :
    InvocationResult × Option String :=
  let functionName := sweepstakeFunctionName env
  let output := ["Environment: " ++ env,
                 "Payload: " ++ marshalIndentEventPayload payload]
  match checkSSOSession w.sso output with
  | (output, some e) => (⟨output, "", some e⟩, Option.none)
  | (output, Option.none) =>
    match w.configLoadErr with
    | some e => (⟨output, "", some ("failed to load AWS config: " ++ e)⟩, Option.none)
    | Option.none =>
      match w.invokeErr with
      | some e =>
        (⟨output, "", some ("failed to invoke Lambda: " ++ e)⟩, some functionName)
      | Option.none =>
        let output := output ++ ["Lambda invocation successful!"]
        let output :=
          if w.responseParsesAsObject then
            output ++ ["Response: " ++ w.formattedResponse]
          else
            output ++ ["Raw response: " ++ w.responsePayload]
        let output :=
          match w.functionError with
          | some fe => output ++ ["Function error: " ++ fe]
          | Option.none => output
        match w.logResult with
        | Option.none => (⟨output, "", Option.none⟩, some functionName)
        | some lr =>
          match decodeBase64 lr with
          | .error e =>
            (⟨output ++ ["Error decoding logs: " ++ e], "", Option.none⟩,
             some functionName)
          | .ok logs => (⟨output, logs, Option.none⟩, some functionName)

/-- A concrete Result-screen state carrying a selected action and a
stored invocation result, used to exercise the back transition. -/
def resultScreenSample : Model :=
  { initialModel with currentScreen := Screen.OutputScreen,
                      selectedEnv := "prod", selectedAction := "process",
                      lambdaOutput := ["line"], lambdaLogs := "logs",
                      lambdaErr := some "boom",
                      actionList := ⟨actionItems, 1⟩ }

/-- A concrete Loading-screen state. -/
def loadingSample : Model :=
  { initialModel with currentScreen := Screen.LoadingScreen }

/-- The start-action payload of the spec's scenario (duration 30). -/
def samplePayloadStart : EventPayload :=
  ⟨"start", false, Option.none, Option.none, some 30, Option.none⟩

/-- World where the session check fails and the re-login also fails. -/
def ssoFailWorld : LambdaWorld :=
  ⟨⟨true, false, false, "exit status 1", "browser error text"⟩,
   Option.none, Option.none, "", false, "", Option.none, Option.none⟩

/-- World where the session check fails but re-login succeeds, and the
remote call then fails in transport. -/
def ssoRecoverWorld : LambdaWorld :=
  ⟨⟨true, false, true, "", "ok"⟩,
   Option.none, some "timeout", "", false, "", Option.none, Option.none⟩

/-- World with a healthy session whose response payload is not JSON. -/
def rawResponseWorld : LambdaWorld :=
  ⟨⟨true, true, false, "", ""⟩,
   Option.none, Option.none, "not-json", false, "", Option.none, Option.none⟩

/-- World with a healthy session whose log blob is not valid base64. -/
def badLogsWorld : LambdaWorld :=
  ⟨⟨true, true, false, "", ""⟩,
   Option.none, Option.none, "", true, "ok", Option.none, some "!!!"⟩

/-- Claim C1: on confirming the parameter prompt with a valid positive
number, the payload handed to the invocation command has
`sweepstake_quest_id` set to the entered number and `duration_minutes`
unset when the selected action is process or complete, and the reverse
when the selected action is start. -/
theorem prompt_confirm_payload_fields (m : Model) (id : Int)
    (hscreen : m.currentScreen = Screen.PromptScreen)
    (hatoi : atoi m.promptInput.value = some id)
    (hpos : 0 < id) :
    ((m.selectedAction = actionProcess ∨ m.selectedAction = actionComplete) →
      (update m (Msg.key "enter")).2 =
        Cmd.batch Cmd.spinnerTickCmd
          (Cmd.invoke m.selectedEnv
            ⟨m.selectedAction, false, some id, Option.none, Option.none, Option.none⟩))
    ∧ (m.selectedAction = actionStart →
      (update m (Msg.key "enter")).2 =
        Cmd.batch Cmd.spinnerTickCmd
          (Cmd.invoke m.selectedEnv
            ⟨m.selectedAction, false, Option.none, Option.none, some id, Option.none⟩)) := by
  have hnle : ¬ id ≤ 0 := not_le.mpr hpos
  constructor
  · intro hcase
    rcases hcase with h | h <;>
      simp [update, hscreen, hatoi, hnle, h, actionProcess, actionComplete]
  · intro hcase
    simp [update, hscreen, hatoi, hnle, hcase, actionStart, actionProcess, actionComplete]

/-- Witness for C1: action process with input "5" on the prompt screen
yields the invocation command whose payload carries quest ID 5 and no
duration. -/
theorem prompt_confirm_payload_fields_witness :
    (update { initialModel with currentScreen := Screen.PromptScreen,
                                selectedAction := "process", selectedEnv := "prod",
                                promptInput := ⟨"5", 10⟩ } (Msg.key "enter")).2 =
      Cmd.batch Cmd.spinnerTickCmd
        (Cmd.invoke "prod" ⟨"process", false, some 5, Option.none, Option.none, Option.none⟩) :=
  (prompt_confirm_payload_fields _ 5 rfl (by decide) (by decide)).1 (Or.inl rfl)

/-- Claim C2 counterexample: pressing "b" on the Result screen moves to
ActionSelect but does NOT discard the stored selected action or the
stored invocation result — the fields keep their old values. -/
theorem result_back_no_discard_cex :
    (update resultScreenSample (Msg.key "b")).1.currentScreen = Screen.ActionScreen ∧
    ¬ ((update resultScreenSample (Msg.key "b")).1.selectedAction = "" ∧
       (update resultScreenSample (Msg.key "b")).1.lambdaOutput = [] ∧
       (update resultScreenSample (Msg.key "b")).1.lambdaLogs = "" ∧
       (update resultScreenSample (Msg.key "b")).1.lambdaErr = Option.none) := by
  decide

/-- Claim C2 (amended): pressing "b" on the Result screen changes only
the current screen, to ActionSelect; every other field — the selected
action, the stored result, and both list widgets' selection state — is
left unchanged (the stale values are simply no longer rendered). -/
theorem result_back_transition_frame (m : Model)
    (h : m.currentScreen = Screen.OutputScreen) :
    update m (Msg.key "b") = ({ m with currentScreen := Screen.ActionScreen }, Cmd.none) := by
  simp [update, h]

/-- Witness for the amended C2 at the concrete Result-screen state. -/
theorem result_back_transition_frame_witness :
    update resultScreenSample (Msg.key "b") =
      ({ resultScreenSample with currentScreen := Screen.ActionScreen }, Cmd.none) :=
  result_back_transition_frame _ rfl

/-- Claim C3 counterexample: on the Loading screen the quit keys are
ignored — Update returns no quit command for either "q" or ctrl+c. -/
theorem loading_quit_ignored_cex :
    (update loadingSample (Msg.key "q")).2 ≠ Cmd.quit ∧
    (update loadingSample (Msg.key "ctrl+c")).2 ≠ Cmd.quit := by
  decide

/-- Claim C3 (amended): in every state except the Loading screen, a quit
key ("q" or ctrl+c) makes Update return the quit command; on the Loading
screen all keyboard input, quit keys included, is ignored (state and
command unchanged). -/
theorem quit_key_quits_outside_loading (m : Model) (s : String)
    (hkey : s = "ctrl+c" ∨ s = "q") :
    (m.currentScreen ≠ Screen.LoadingScreen → (update m (Msg.key s)).2 = Cmd.quit) ∧
    (m.currentScreen = Screen.LoadingScreen → update m (Msg.key s) = (m, Cmd.none)) := by
  constructor
  · intro hscreen
    rcases hkey with h | h <;> subst h <;> simp [update, hscreen]
  · intro hscreen
    rcases hkey with h | h <;> subst h <;> simp [update, hscreen]

/-- Witness for the amended C3: "q" quits from the initial screen, and
is ignored on the Loading screen. -/
theorem quit_key_quits_outside_loading_witness :
    (update initialModel (Msg.key "q")).2 = Cmd.quit ∧
    update loadingSample (Msg.key "q") = (loadingSample, Cmd.none) :=
  ⟨(quit_key_quits_outside_loading initialModel "q" (Or.inr rfl)).1 (by decide),
   (quit_key_quits_outside_loading loadingSample "q" (Or.inr rfl)).2 rfl⟩

/-- Claim C4: on the ParameterPrompt screen, confirming with an input
that is not a decimal integer, or that parses to a value at most zero,
keeps the screen at ParameterPrompt, sets the validation message
"Please enter a valid positive number", and issues no command (in
particular no invocation is started and no payload is constructed). -/
theorem prompt_invalid_input_rejected (m : Model)
    (hscreen : m.currentScreen = Screen.PromptScreen)
    (hval : ∀ id : Int, atoi m.promptInput.value = some id → id ≤ 0) :
    update m (Msg.key "enter") =
      ({ m with promptMessage := "Please enter a valid positive number" }, Cmd.none) := by
  cases hA : atoi m.promptInput.value with
  | none => simp [update, hscreen, hA]
  | some id =>
    have hle := hval id hA
    simp [update, hscreen, hA, hle]

/-- Witness for C4: the spec's scenario, entering "-5" with action
process on the prompt screen. -/
theorem prompt_invalid_input_rejected_witness :
    update { initialModel with currentScreen := Screen.PromptScreen,
                               selectedAction := "process", selectedEnv := "prod",
                               promptInput := ⟨"-5", 10⟩ } (Msg.key "enter") =
      ({ initialModel with currentScreen := Screen.PromptScreen,
                           selectedAction := "process", selectedEnv := "prod",
                           promptInput := ⟨"-5", 10⟩,
                           promptMessage := "Please enter a valid positive number" }, Cmd.none) :=
  prompt_invalid_input_rejected _ rfl (by decide)

/-- Claim C5: with the AWS CLI present and a failing session check, a
failing re-login makes the invocation return the SSO error — whose text
contains (here: ends with) the login command's combined captured
output — and the lambda is never invoked; a successful re-login (with
config loading intact) lets the flow proceed to the remote call. -/
theorem sso_relogin_gates_invocation (w : LambdaWorld) (env : String) (p : EventPayload)
    (hcli : w.sso.awsCliFound = true)
    (hsts : w.sso.stsOk = false) :
    (w.sso.loginOk = false →
      (invokeLambda w env p).2 = Option.none ∧
      (invokeLambda w env p).1.err =
        some ("SSO login failed: " ++ w.sso.loginErr ++ "\nOutput: " ++ w.sso.loginOutput) ∧
      ∃ a b : String,
        "SSO login failed: " ++ w.sso.loginErr ++ "\nOutput: " ++ w.sso.loginOutput =
          a ++ w.sso.loginOutput ++ b) ∧
    (w.sso.loginOk = true → w.configLoadErr = Option.none →
      (invokeLambda w env p).2 = some (sweepstakeFunctionName env)) := by
  constructor
  · intro hlogin
    refine ⟨?_, ?_, "SSO login failed: " ++ w.sso.loginErr ++ "\nOutput: ", "", ?_⟩
    · simp [invokeLambda, checkSSOSession, hcli, hsts, hlogin]
    · simp [invokeLambda, checkSSOSession, hcli, hsts, hlogin]
    · simp [String.append_assoc]
  · intro hlogin hcfg
    simp only [invokeLambda, checkSSOSession, hcli, hsts, hlogin, hcfg]
    (repeat' split) <;> simp_all

/-- Witness for C5 at concrete worlds: a failed re-login blocks the
call and surfaces the captured output; a successful re-login reaches
the remote call. -/
theorem sso_relogin_gates_invocation_witness :
    ((invokeLambda ssoFailWorld "dev" samplePayloadStart).2 = Option.none ∧
      (invokeLambda ssoFailWorld "dev" samplePayloadStart).1.err =
        some ("SSO login failed: " ++ "exit status 1" ++ "\nOutput: " ++ "browser error text")) ∧
    (invokeLambda ssoRecoverWorld "dev" samplePayloadStart).2 =
      some (sweepstakeFunctionName "dev") :=
  ⟨⟨((sso_relogin_gates_invocation ssoFailWorld "dev" samplePayloadStart rfl rfl).1 rfl).1,
    ((sso_relogin_gates_invocation ssoFailWorld "dev" samplePayloadStart rfl rfl).1 rfl).2.1⟩,
   (sso_relogin_gates_invocation ssoRecoverWorld "dev" samplePayloadStart rfl rfl).2 rfl rfl⟩

/-- Claim C6: when the remote call succeeds but its payload bytes do not
parse as a JSON object, the invocation appends the raw bytes as a
"Raw response:" output line and still returns no error. -/
theorem raw_response_fallback_no_error (w : LambdaWorld) (env : String) (p : EventPayload)
    (hcli : w.sso.awsCliFound = true) (hsts : w.sso.stsOk = true)
    (hcfg : w.configLoadErr = Option.none) (hinv : w.invokeErr = Option.none)
    (hparse : w.responseParsesAsObject = false) :
    ("Raw response: " ++ w.responsePayload) ∈ (invokeLambda w env p).1.output ∧
    (invokeLambda w env p).1.err = Option.none := by
  simp only [invokeLambda, checkSSOSession, hcli, hsts, hcfg, hinv, hparse]
  (repeat' split) <;> simp_all

/-- Witness for C6 at a concrete world with a non-JSON response. -/
theorem raw_response_fallback_no_error_witness :
    ("Raw response: " ++ rawResponseWorld.responsePayload) ∈
      (invokeLambda rawResponseWorld "dev" samplePayloadStart).1.output ∧
    (invokeLambda rawResponseWorld "dev" samplePayloadStart).1.err = Option.none :=
  raw_response_fallback_no_error rawResponseWorld "dev" samplePayloadStart rfl rfl rfl rfl rfl

/-- Claim C7: when the remote call succeeds but the returned log blob is
not valid base64, the invocation appends an output line reporting the
decode error, leaves the logs string empty, and still returns no error. -/
theorem log_decode_failure_nonfatal (w : LambdaWorld) (env : String) (p : EventPayload)
    (s : String)
    (hcli : w.sso.awsCliFound = true) (hsts : w.sso.stsOk = true)
    (hcfg : w.configLoadErr = Option.none) (hinv : w.invokeErr = Option.none)
    (hlog : w.logResult = some s)
    (hbad : decodeB64Groups s.toList = Option.none) :
    (invokeLambda w env p).1.logs = "" ∧
    (invokeLambda w env p).1.err = Option.none ∧
    ("Error decoding logs: " ++ "failed to decode base64: illegal base64 data") ∈
      (invokeLambda w env p).1.output := by
  simp only [invokeLambda, checkSSOSession, decodeBase64, hcli, hsts, hcfg, hinv, hlog, hbad]
  (repeat' split) <;> simp_all

/-- Witness for C7 at a concrete world whose log blob "!!!" is invalid. -/
theorem log_decode_failure_nonfatal_witness :
    (invokeLambda badLogsWorld "dev" samplePayloadStart).1.logs = "" ∧
    (invokeLambda badLogsWorld "dev" samplePayloadStart).1.err = Option.none ∧
    ("Error decoding logs: " ++ "failed to decode base64: illegal base64 data") ∈
      (invokeLambda badLogsWorld "dev" samplePayloadStart).1.output :=
  log_decode_failure_nonfatal badLogsWorld "dev" samplePayloadStart "!!!"
    rfl rfl rfl rfl rfl (by decide)

/-- Claim C8: once the flow has left the EnvironmentSelect screen (as it
has in every state reachable after the environment was confirmed), no
Update step changes the stored environment, and no Update step leads
back to the EnvironmentSelect screen. -/
theorem selected_env_immutable (m : Model) (msg : Msg)
    (h : m.currentScreen ≠ Screen.EnvironmentScreen) :
    (update m msg).1.selectedEnv = m.selectedEnv ∧
      (update m msg).1.currentScreen ≠ Screen.EnvironmentScreen := by
  cases msg <;>
    simp only [update, fallthroughWidgets] <;>
    (repeat' split) <;>
    simp_all

/-- Witness for C8: from the Result screen, the lambda-completion
message neither changes the environment nor returns to EnvironmentSelect. -/
theorem selected_env_immutable_witness :
    (update { initialModel with currentScreen := Screen.OutputScreen, selectedEnv := "dev" }
        (Msg.lambdaMsg ["x"] "" Option.none)).1.selectedEnv = "dev" ∧
    (update { initialModel with currentScreen := Screen.OutputScreen, selectedEnv := "dev" }
        (Msg.lambdaMsg ["x"] "" Option.none)).1.currentScreen ≠ Screen.EnvironmentScreen :=
  selected_env_immutable _ _ (by decide)

/-- Claim C9: the serialized payload always emits the keys "action",
"dry_run" and "sweepstake_quest_id" (the last as JSON null when the
quest ID is unset), in struct order, while "batch_size",
"duration_minutes" and "sweepstake_overrides" appear exactly when set. -/
theorem payload_json_keys (p : EventPayload) :
    (marshalFields p).map Prod.fst =
      "action" :: "dry_run" :: "sweepstake_quest_id" ::
        ((if p.batchSize.isSome then ["batch_size"] else []) ++
         (if p.durationMinutes.isSome then ["duration_minutes"] else []) ++
         (if p.sweepstakeOverrides.isSome then ["sweepstake_overrides"] else [])) ∧
    (p.sweepstakeQuestID = Option.none →
      ("sweepstake_quest_id", JVal.jnull) ∈ marshalFields p) := by
  constructor
  · cases hb : p.batchSize <;> cases hd : p.durationMinutes <;>
      cases ho : p.sweepstakeOverrides <;> simp [marshalFields, hb, hd, ho]
  · intro h
    simp [marshalFields, h]

/-- Witness for C9 at the start-action payload: quest ID serialized as
null, duration present, batch size and overrides omitted. -/
theorem payload_json_keys_witness :
    (marshalFields samplePayloadStart).map Prod.fst =
      ["action", "dry_run", "sweepstake_quest_id", "duration_minutes"] ∧
    ("sweepstake_quest_id", JVal.jnull) ∈ marshalFields samplePayloadStart := by
  have h := payload_json_keys samplePayloadStart
  exact ⟨by simpa using h.1, h.2 rfl⟩

/-- Claim C10: on the ParameterPrompt screen, pressing "b" does not
navigate back: the screen stays ParameterPrompt, the key is forwarded to
the text input widget, no command is issued — while the rendered prompt
body nevertheless ends with the hint "Press Enter to continue or 'b' to
go back". -/
theorem prompt_b_key_not_back (m : Model)
    (hscreen : m.currentScreen = Screen.PromptScreen) :
    update m (Msg.key "b") =
      ({ m with promptInput := m.promptInput.update (Msg.key "b") }, Cmd.none) ∧
    (update m (Msg.key "b")).1.currentScreen = Screen.PromptScreen ∧
    ∃ a : String, promptScreenBody m = a ++ "  Press Enter to continue or 'b' to go back\n" := by
  refine ⟨?_, ?_, ?_⟩
  · simp [update, fallthroughWidgets, hscreen]
  · simp [update, fallthroughWidgets, hscreen]
  · exact ⟨_, rfl⟩

/-- Witness for C10: a concrete prompt-screen model with value "12": the
"b" is appended to the input and the screen stays ParameterPrompt. -/
theorem prompt_b_key_not_back_witness :
    update { initialModel with currentScreen := Screen.PromptScreen,
                               promptInput := ⟨"12", 10⟩ } (Msg.key "b") =
      ({ initialModel with currentScreen := Screen.PromptScreen,
                           promptInput := ⟨"12b", 10⟩ }, Cmd.none) ∧
    (update { initialModel with currentScreen := Screen.PromptScreen,
                                promptInput := ⟨"12", 10⟩ } (Msg.key "b")).1.currentScreen =
      Screen.PromptScreen ∧
    ∃ a : String,
      promptScreenBody { initialModel with currentScreen := Screen.PromptScreen,
                                           promptInput := ⟨"12", 10⟩ } =
        a ++ "  Press Enter to continue or 'b' to go back\n" :=
  prompt_b_key_not_back _ rfl
